import Mathlib

/-!
Verification development for the pgvector vector-store binding
(`src/vectorstore/pgvector/pgvector.rs`) and the DataForSeo search tool
(`src/tools/dataforseo/dataforseo.rs`).

Modelling conventions:
* `serde_json::Value` is modelled by `JValue`; JSON numbers are modelled as
  integers (`Int`), which is what every number-consuming operation in the
  modelled code (`as_u64`) actually inspects.
* `f32`/`f64` scores and distances are modelled by `ℚ`; none of the modelled
  comparisons depend on floating-point rounding.
* The relational backend and its transactions are external collaborators;
  they are modelled by explicit state (`PgDb`, a list of committed rows) plus
  oracle parameters deciding whether each `INSERT`, `BEGIN` and `COMMIT`
  statement succeeds.  A transaction accumulates rows privately and publishes
  them into the database only on commit; every error path leaves the
  database unchanged (sqlx rollback-on-drop).
* The distance operator `<=>` computed by the backend is passed in as a
  function parameter `dist`, mirroring the spec's statement that the
  distance metric is backend-configured.
* UUID generation (`Uuid::new_v4`) is modelled by an id oracle
  `genId : Nat → String` giving the id generated at each loop iteration.
-/

/-- JSON values, modelling `serde_json::Value`.  Objects are association
lists with unique keys (serde's `Map`); numbers are modelled as integers. -/
inductive JValue where
  | null : JValue
  | bool : Bool → JValue
  | num : Int → JValue
  | str : String → JValue
  | arr : List JValue → JValue
  | obj : List (String × JValue) → JValue

/-- Indexing `value["key"]`, which yields `Null` on a missing key or a
non-object receiver (serde's `Index for &str`). -/
def jget (v : JValue) (k : String) : JValue :=
  match v with
  | JValue.obj kvs => (kvs.lookup k).getD JValue.null
  | _ => JValue.null

/-- Value.as_u64: a non-negative integer number, else `none`. -/
def asU64 : JValue → Option Nat
  | JValue.num n => if 0 ≤ n then some n.toNat else none
  | _ => none

/-- Value.as_str. -/
def asStr : JValue → Option String
  | JValue.str s => some s
  | _ => none

/-- Value.as_array. -/
def asArray : JValue → Option (List JValue)
  | JValue.arr xs => some xs
  | _ => none

/-- Helper: whether an `Except` result is a success. -/
def exceptOk : Except ε α → Bool
  | Except.ok _ => true
  | Except.error _ => false

/-- The `Embedder` trait boundary: `embed_documents` and `embed_query`,
each of which may fail (failures propagate to the calling operation). -/
structure Embedder where
  embed_documents : List String → Except String (List (List ℚ))
  embed_query : String → Except String (List ℚ)

/-- The `Document` schema: `page_content`, `metadata` (string-keyed JSON
mapping) and a retrieval `score`. -/
structure Document where
  page_content : String
  metadata : List (String × JValue)
  score : ℚ

/-- Per-call options (`VecStoreOptions`), reconstructed from their use in
the source: `opt.name_space : Option<String>`, `opt.filters : Option<Value>`,
`opt.score_threshold : Option<f32>`, `opt.embedder : Option<Arc<dyn Embedder>>`. -/
structure VecStoreOptions where
  name_space : Option String
  filters : Option JValue
  score_threshold : Option ℚ
  embedder : Option Embedder

/-- The pgvector `Store`, restricted to the fields the modelled operations
read: the default embedder, the configured collection name and the
collection uuid.  The remaining fields (pool handle, table names,
pre-delete flag, vector dimensions, HNSW tuning) are backend plumbing
never consulted by the logic under verification. -/
structure Store where
  embedder : Embedder
  collection_name : String
  collection_uuid : String

/-- Store::get_filters: accepts `Some(Value::Object(map))` (converted to a
key/value mapping), resolves absent filters to the empty mapping, and
rejects any other variant with "Invalid filters format". -/
def Store.get_filters (_s : Store) (opt : VecStoreOptions) :
    Except String (List (String × JValue)) :=
  match opt.filters with
  | some (JValue.obj map) => Except.ok map
  | none => Except.ok []
  | some _ => Except.error "Invalid filters format"

/-- Store::get_name_space: the option's namespace if present, else the
store's configured collection name. -/
def Store.get_name_space (s : Store) (opt : VecStoreOptions) : String :=
  match opt.name_space with
  | some name_space => name_space
  | none => s.collection_name

/-- Store::get_score_threshold: the option's threshold if present and inside
`[0, 1]`, an "Invalid score threshold" error outside that range, and `0`
when absent. -/
def Store.get_score_threshold (_s : Store) (opt : VecStoreOptions) :
    Except String ℚ :=
  match opt.score_threshold with
  | some score_threshold =>
      if score_threshold < 0 ∨ score_threshold > 1 then
        Except.error "Invalid score threshold"
      else
        Except.ok score_threshold
  | none => Except.ok 0

/-- One row of the embedding table, as bound by the `INSERT` statement in
`add_documents`: `(uuid, document, embedding, cmetadata, collection_id)`. -/
structure EmbeddedRow where
  uuid : String
  document : String
  embedding : List ℚ
  cmetadata : JValue
  collection_id : String

/-- The committed state of the embedding table. -/
structure PgDb where
  rows : List EmbeddedRow

/-- The row built for document `doc` with vector `vec` at loop index `i`:
fresh uuid, page content, embedding, metadata serialized as JSON, and the
store's collection uuid. -/
def mkRow (collId : String) (genId : Nat → String) (i : Nat)
    (doc : Document) (vec : List ℚ) : EmbeddedRow :=
  { uuid := genId i
    document := doc.page_content
    embedding := vec
    cmetadata := JValue.obj doc.metadata
    collection_id := collId }

/-- The insert loop of `add_documents`, inside the transaction: for each
(document, vector) pair, build a row and execute the insert; a failing
insert aborts the loop (the `?` operator), otherwise the generated id and
the pending row are recorded in order. -/
def insertLoop (collId : String) (genId : Nat → String)
    (insertOk : EmbeddedRow → Bool) :
    Nat → List (Document × List ℚ) →
    Except String (List String × List EmbeddedRow)
  | _, [] => Except.ok ([], [])
  | i, (doc, vec) :: rest =>
    let row := mkRow collId genId i doc vec
    if insertOk row then
      match insertLoop collId genId insertOk (i + 1) rest with
      | Except.ok (ids, pending) => Except.ok (genId i :: ids, row :: pending)
      | Except.error e => Except.error e
    else
      Except.error "database insert error"

/-- The rows the insert loop builds, as a pure function of the batch. -/
def mkRows (collId : String) (genId : Nat → String) :
    Nat → List (Document × List ℚ) → List EmbeddedRow
  | _, [] => []
  | i, (doc, vec) :: rest =>
      mkRow collId genId i doc vec :: mkRows collId genId (i + 1) rest

/-- VectorStore::add_documents for the pgvector store.  Order of effects as
in the source: reject non-default `score_threshold`/`filters`/`name_space`;
collect the texts; resolve the embedder (per-call override or store
default); embed the batch; check the vector count; begin a transaction;
insert every row inside it; commit.  `genId` supplies the uuid generated at
each iteration; `insertOk`, `beginOk` and `commitOk` are the backend's
verdicts on the corresponding statements.  Returns the result together
with the database state after the call: every error path leaves `db`
unchanged (rollback on drop), and only a successful commit publishes the
batch. -/
def add_documents (s : Store) (docs : List Document) (opt : VecStoreOptions)
    (genId : Nat → String) (insertOk : EmbeddedRow → Bool)
    (beginOk commitOk : Bool) (db : PgDb) :
    Except String (List String) × PgDb :=
  if opt.score_threshold.isSome || opt.filters.isSome || opt.name_space.isSome then
    (Except.error "score_threshold, filters, and name_space are not supported in pgvector", db)
  else
    let texts := docs.map (fun d => d.page_content)
    let embedder := opt.embedder.getD s.embedder
    match embedder.embed_documents texts with
    | Except.error e => (Except.error e, db)
    | Except.ok vectors =>
      if vectors.length ≠ docs.length then
        (Except.error "Number of vectors and documents do not match", db)
      else if beginOk = false then
        (Except.error "failed to begin transaction", db)
      else
        match insertLoop s.collection_uuid genId insertOk 0 (docs.zip vectors) with
        | Except.error e => (Except.error e, db)
        | Except.ok (ids, pending) =>
          if commitOk then
            (Except.ok ids, { rows := db.rows ++ pending })
          else
            (Except.error "failed to commit transaction", db)

/-- One row of the `vector_docs` table read by `similarity_search`:
`content`, `namespace`, and the stored embedding (`vectors` column). -/
structure SearchRow where
  content : String
  nspace : String
  embedding : List ℚ

/-- VectorStore::similarity_search for the pgvector store.  The namespace
is `opt.name_space` or the literal "default"; the query text is embedded
with the store's embedder; the backend query keeps the rows of `table`
whose namespace equals the resolved namespace, orders them by ascending
distance (`dist` models the backend-configured `<=>` operator against the
query vector) and truncates to `limit`; each row is mapped to a `Document`
whose metadata holds the row's namespace and whose score is the raw
distance. -/
def similarity_search (s : Store) (query : String) (limit : Nat)
    (opt : VecStoreOptions) (dist : List ℚ → List ℚ → ℚ)
    (table : List SearchRow) : Except String (List Document) :=
  let nspace := opt.name_space.getD "default"
  match s.embedder.embed_query query with
  | Except.error e => Except.error e
  | Except.ok query_vector =>
    let scored := (table.filter (fun r => r.nspace == nspace)).map
      (fun r => (r, dist r.embedding query_vector))
    let rows := (scored.insertionSort (fun a b => a.2 ≤ b.2)).take limit
    Except.ok (rows.map (fun rd =>
      { page_content := rd.1.content
        metadata := [("namespace", JValue.str rd.1.nspace)]
        score := rd.2 }))

/-- The formatted entry built for one titled item of the DataForSeo
response: "Title: {title}\nSnippet: {snippet}\n" with a missing snippet
replaced by the empty string. -/
def formatItem (item : JValue) : Option String :=
  match asStr (jget item "title") with
  | some title =>
      some ("Title: " ++ title ++ "\nSnippet: " ++
        ((asStr (jget item "snippet")).getD "") ++ "\n")
  | none => none

/-- The organic-results loop of `process_dataforseo_response`: walk the
items in order, skip items without a title, push the formatted entry for
each titled item, and break once 30 entries have been collected. -/
def collectOrganic : List JValue → List String → List String
  | [], acc => acc
  | item :: rest, acc =>
    match formatItem item with
    | some entry =>
      let acc2 := acc ++ [entry]
      if 30 ≤ acc2.length then acc2 else collectOrganic rest acc2
    | none => collectOrganic rest acc

/-- The nested `if let` chain of `process_dataforseo_response`:
`res["tasks"]` as an array, its first task, the task's `result` array, its
first result, and that result's `items` array; `none` when any step is not
of the expected shape (in the source every such step falls through to the
single trailing error). -/
def extractItems (res : JValue) : Option (List JValue) :=
  match asArray (jget res "tasks") with
  | some tasks =>
    match tasks.head? with
    | some first_task =>
      match asArray (jget first_task "result") with
      | some results =>
        match results.head? with
        | some first_result => asArray (jget first_result "items")
        | none => none
      | none => none
    | none => none
  | none => none

/-- The tail of `process_dataforseo_response` after the status check:
collect the organic results from the extracted items and join them with
a newline when non-empty; every other path yields the trailing
"No valid results found in the response structure" error. -/
def processTasks (res : JValue) : Except String String :=
  match extractItems res with
  | some items =>
    let organic_results := collectOrganic items []
    if organic_results.isEmpty then
      Except.error "No valid results found in the response structure"
    else
      Except.ok (String.intercalate "\n" organic_results)
  | none => Except.error "No valid results found in the response structure"

/-- process_dataforseo_response: if `res["status_code"]` is a u64 different
from 20000, fail with the API error message; otherwise process the tasks. -/
def process_dataforseo_response (res : JValue) : Except String String :=
  match asU64 (jget res "status_code") with
  | some status_code =>
    if status_code ≠ 20000 then
      Except.error ("API error: " ++
        ((asStr (jget res "status_message")).getD "Unknown error"))
    else
      processTasks res
  | none => processTasks res

/-- A constant backend distance metric used for concrete evaluations. -/
def distC : List ℚ → List ℚ → ℚ := fun _ _ => 1

/-- A stub embedder sending every text to the vector `[1]`. -/
def embA : Embedder :=
  { embed_documents := fun ts => Except.ok (ts.map (fun _ => [1]))
    embed_query := fun _ => Except.ok [1] }

/-- A stub embedder sending every text to the vector `[2]`. -/
def embB : Embedder :=
  { embed_documents := fun ts => Except.ok (ts.map (fun _ => [2]))
    embed_query := fun _ => Except.ok [2] }

/-- A stub embedder that always fails, to observe which embedder a call
actually consults. -/
def embErr : Embedder :=
  { embed_documents := fun _ => Except.error "store embedder used"
    embed_query := fun _ => Except.error "store embedder used" }

/-- A stub embedder returning no vectors at all. -/
def embBad : Embedder :=
  { embed_documents := fun _ => Except.ok []
    embed_query := fun _ => Except.ok [1] }

/-- A store whose collection name differs from the literal "default". -/
def storeA : Store :=
  { embedder := embA, collection_name := "my_collection", collection_uuid := "coll-uuid" }

/-- A store whose default embedder always fails. -/
def storeErr : Store :=
  { embedder := embErr, collection_name := "my_collection", collection_uuid := "coll-uuid" }

/-- A store whose default embedder returns a wrong vector count. -/
def storeBad : Store :=
  { embedder := embBad, collection_name := "my_collection", collection_uuid := "coll-uuid" }

/-- Options with every field left at its default. -/
def noOpts : VecStoreOptions :=
  { name_space := none, filters := none, score_threshold := none, embedder := none }

/-- Options carrying a flat metadata filter and a score threshold. -/
def cexOpt1 : VecStoreOptions :=
  { name_space := none
    filters := some (JValue.obj [("color", JValue.str "red")])
    score_threshold := some (1/2)
    embedder := none }

/-- A one-row search table in the "default" namespace. -/
def tableC : List SearchRow :=
  [{ content := "doc a", nspace := "default", embedding := [1] }]

/-- A search table holding one row under the store's collection name and
one row under the literal "default" namespace. -/
def tableNs : List SearchRow :=
  [{ content := "in collection", nspace := "my_collection", embedding := [1] },
   { content := "in default", nspace := "default", embedding := [1] }]

/-- The document `similarity_search` produces from the single row of
`tableC` under the constant metric. -/
def cexDoc1 : Document :=
  { page_content := "doc a"
    metadata := [("namespace", JValue.str "default")]
    score := 1 }

/-- The document `similarity_search` produces from the "default" row of
`tableNs` under the constant metric. -/
def cexDoc3 : Document :=
  { page_content := "in default"
    metadata := [("namespace", JValue.str "default")]
    score := 1 }

/-- Options whose filter value is a nested object. -/
def nestedFilterOpt : VecStoreOptions :=
  { name_space := none
    filters := some (JValue.obj [("key1", JValue.obj [("key2", JValue.str "values2")])])
    score_threshold := none
    embedder := none }

/-- Options whose filter value is a flat scalar-valued object. -/
def flatFilterOpt : VecStoreOptions :=
  { name_space := none
    filters := some (JValue.obj [("k", JValue.str "v")])
    score_threshold := none
    embedder := none }

/-- Options carrying a per-call embedder override. -/
def overrideOpt : VecStoreOptions :=
  { name_space := none, filters := none, score_threshold := none, embedder := some embB }

/-- Options setting a namespace, unsupported on the insert path. -/
def nsOpt : VecStoreOptions :=
  { name_space := some "other", filters := none, score_threshold := none, embedder := none }

/-- Options carrying an out-of-range score threshold. -/
def thrOpt : VecStoreOptions :=
  { name_space := none, filters := none, score_threshold := some (11/10), embedder := none }

/-- A concrete document batch element. -/
def docW : Document := { page_content := "hello", metadata := [], score := 0 }

/-- A deterministic id oracle for concrete runs. -/
def genIdW : Nat → String := fun _ => "id"

/-- A backend that accepts every insert. -/
def insertAllOk : EmbeddedRow → Bool := fun _ => true

/-- An initially empty embedding table. -/
def dbEmpty : PgDb := { rows := [] }

/-- A DataForSeo response whose status code is present and not 20000. -/
def resBadStatus : JValue :=
  JValue.obj [("status_code", JValue.num 40501),
              ("status_message", JValue.str "Auth error")]

/-- A successful insert loop commits exactly the rows built from the batch. -/
theorem insertLoop_ok_rows (collId : String) (genId : Nat → String)
    (insertOk : EmbeddedRow → Bool) :
    ∀ (l : List (Document × List ℚ)) (i : Nat) (ids : List String)
      (pending : List EmbeddedRow),
      insertLoop collId genId insertOk i l = Except.ok (ids, pending) →
      pending = mkRows collId genId i l := by
  intro l
  induction l with
  | nil =>
    intro i ids pending h
    simp only [insertLoop, Except.ok.injEq, Prod.mk.injEq] at h
    simp [mkRows, h.2.symm]
  | cons hd tl ih =>
    obtain ⟨doc, vec⟩ := hd
    intro i ids pending h
    simp only [insertLoop] at h
    by_cases hins : insertOk (mkRow collId genId i doc vec)
    · rw [if_pos hins] at h
      cases hrec : insertLoop collId genId insertOk (i + 1) tl with
      | ok p =>
        obtain ⟨ids2, pending2⟩ := p
        rw [hrec] at h
        simp only [Except.ok.injEq, Prod.mk.injEq] at h
        rw [← h.2, mkRows]
        exact congrArg _ (ih (i + 1) ids2 pending2 hrec)
      | error e =>
        rw [hrec] at h
        cases h
    · rw [if_neg hins] at h
      cases h

/-- Unfolding of the organic-results loop: starting below the cap, it
appends the formatted titled items in order, truncated to the room left
under the cap of 30. -/
theorem collectOrganic_eq (items : List JValue) :
    ∀ acc : List String, acc.length < 30 →
      collectOrganic items acc
        = acc ++ (items.filterMap formatItem).take (30 - acc.length) := by
  induction items with
  | nil =>
    intro acc _
    simp [collectOrganic]
  | cons item rest ih =>
    intro acc hacc
    cases hf : formatItem item with
    | none =>
      rw [collectOrganic, hf, List.filterMap_cons_none hf, ih acc hacc]
    | some entry =>
      rw [collectOrganic, hf, List.filterMap_cons_some hf]
      simp only [List.length_append, List.length_cons, List.length_nil]
      by_cases h30 : 30 ≤ acc.length + 1
      · rw [if_pos (by omega)]
        have h29 : acc.length = 29 := by omega
        rw [h29]
        simp
      · rw [if_neg (by omega)]
        rw [ih (acc ++ [entry]) (by simp; omega)]
        have hsub : 30 - acc.length = (30 - (acc.length + 1)) + 1 := by omega
        simp only [List.length_append, List.length_cons, List.length_nil,
          List.append_assoc, List.singleton_append, hsub, List.take_succ_cons]

/-- The loop started on an empty accumulator collects the first 30
formatted titled items. -/
theorem collectOrganic_nil (items : List JValue) :
    collectOrganic items [] = (items.filterMap formatItem).take 30 := by
  rw [collectOrganic_eq items [] (by simp)]
  simp

/-- A successful tasks phase extracted some items, at least one of them
titled, and joined the first 30 formatted titled items. -/
theorem processTasks_ok (res : JValue) (out : String)
    (h : processTasks res = Except.ok out) :
    ∃ items, extractItems res = some items ∧
      items.filterMap formatItem ≠ [] ∧
      out = String.intercalate "\n" ((items.filterMap formatItem).take 30) := by
  unfold processTasks at h
  cases he : extractItems res with
  | none => rw [he] at h; cases h
  | some items =>
    rw [he] at h
    simp only [collectOrganic_nil] at h
    by_cases hemp : ((items.filterMap formatItem).take 30).isEmpty
    · rw [if_pos hemp] at h
      cases h
    · rw [if_neg hemp] at h
      refine ⟨items, rfl, ?_, ?_⟩
      · intro hnil
        rw [hnil] at hemp
        simp at hemp
      · cases h
        rfl

/-- Every document returned by `similarity_search` is the image of a table
row in the resolved namespace, with the query vector produced by the
store's embedder. -/
theorem mem_similarity_search (s : Store) (query : String) (limit : Nat)
    (opt : VecStoreOptions) (dist : List ℚ → List ℚ → ℚ) (table : List SearchRow)
    (docs : List Document) (d : Document)
    (h : similarity_search s query limit opt dist table = Except.ok docs)
    (hd : d ∈ docs) :
    ∃ qv r, s.embedder.embed_query query = Except.ok qv ∧ r ∈ table ∧
      r.nspace = opt.name_space.getD "default" ∧
      d.page_content = r.content ∧
      d.metadata = [("namespace", JValue.str r.nspace)] ∧
      d.score = dist r.embedding qv := by
  unfold similarity_search at h
  cases hq : s.embedder.embed_query query with
  | error e => rw [hq] at h; cases h
  | ok qv =>
    rw [hq] at h
    simp only [Except.ok.injEq] at h
    rw [← h] at hd
    obtain ⟨rd, hrd, hfd⟩ := List.mem_map.mp hd
    have hsorted : rd ∈ (((table.filter (fun r => r.nspace == opt.name_space.getD "default")).map
        (fun r => (r, dist r.embedding qv))).insertionSort (fun a b => a.2 ≤ b.2)) :=
      List.take_subset _ _ hrd
    have hscored := (List.mem_insertionSort _).mp hsorted
    obtain ⟨r, hrf, hgr⟩ := List.mem_map.mp hscored
    obtain ⟨hrtab, hrns⟩ := List.mem_filter.mp hrf
    refine ⟨qv, r, rfl, hrtab, by simpa using hrns, ?_, ?_, ?_⟩
    · rw [← hfd, ← hgr]
    · rw [← hfd, ← hgr]
    · rw [← hfd, ← hgr]

/-- C4 counterexample: a filter whose value is a nested object does not
fail with InvalidFilterShape; `get_filters` accepts it and returns the
nested pair unvalidated. -/
theorem get_filters_nested_cex :
    Store.get_filters storeA nestedFilterOpt
      = Except.ok [("key1", JValue.obj [("key2", JValue.str "values2")])] := rfl

/-- C4 (amended): filter resolution accepts any JSON object filter,
returning its key/value pairs unvalidated (values may themselves be
objects or arrays); a non-object filter fails with the invalid-format
error; absent filters resolve to an empty mapping. -/
theorem get_filters_object_spec (s : Store) (opt : VecStoreOptions) :
    (opt.filters = none → Store.get_filters s opt = Except.ok []) ∧
    (∀ m, opt.filters = some (JValue.obj m) → Store.get_filters s opt = Except.ok m) ∧
    (∀ v, opt.filters = some v → (∀ m, v ≠ JValue.obj m) →
      Store.get_filters s opt = Except.error "Invalid filters format") := by
  refine ⟨fun h => by simp [Store.get_filters, h],
    fun m h => by simp [Store.get_filters, h], fun v h hv => ?_⟩
  rw [Store.get_filters, h]
  cases v with
  | obj m => exact absurd rfl (hv m)
  | null => rfl
  | bool b => rfl
  | num n => rfl
  | str t => rfl
  | arr xs => rfl

/-- C4 witness: a flat scalar-valued object filter resolves to its pairs. -/
theorem get_filters_object_spec_witness :
    Store.get_filters storeA flatFilterOpt = Except.ok [("k", JValue.str "v")] :=
  (get_filters_object_spec storeA flatFilterOpt).2.1 [("k", JValue.str "v")] rfl

/-- C6: when the resolved embedder returns a vector count different from
the document count, `add_documents` fails with the count-mismatch error
and the database is unchanged (no rows written). -/
theorem add_documents_count_mismatch (s : Store) (docs : List Document)
    (opt : VecStoreOptions) (genId : Nat → String) (insertOk : EmbeddedRow → Bool)
    (beginOk commitOk : Bool) (db : PgDb) (vectors : List (List ℚ))
    (h1 : opt.score_threshold = none) (h2 : opt.filters = none)
    (h3 : opt.name_space = none)
    (hemb : (opt.embedder.getD s.embedder).embed_documents
        (docs.map (fun d => d.page_content)) = Except.ok vectors)
    (hlen : vectors.length ≠ docs.length) :
    add_documents s docs opt genId insertOk beginOk commitOk db
      = (Except.error "Number of vectors and documents do not match", db) := by
  simp [add_documents, h1, h2, h3, hemb, hlen]

/-- C6 witness: an embedder returning no vectors for a one-document batch. -/
theorem add_documents_count_mismatch_witness :
    add_documents storeBad [docW] noOpts genIdW insertAllOk true true dbEmpty
      = (Except.error "Number of vectors and documents do not match", dbEmpty) :=
  add_documents_count_mismatch storeBad [docW] noOpts genIdW insertAllOk
    true true dbEmpty [] rfl rfl rfl rfl (by decide)

/-- C7: setting score_threshold, filters or namespace on the insert path
fails immediately with the unsupported-options error, for every store,
every embedder and every backend verdict, and leaves the database
unchanged — so the failure happens before any embedding request and
before any backend write. -/
theorem add_documents_unsupported_options (s : Store) (docs : List Document)
    (opt : VecStoreOptions) (genId : Nat → String) (insertOk : EmbeddedRow → Bool)
    (beginOk commitOk : Bool) (db : PgDb)
    (h : (opt.score_threshold.isSome || opt.filters.isSome || opt.name_space.isSome) = true) :
    add_documents s docs opt genId insertOk beginOk commitOk db
      = (Except.error "score_threshold, filters, and name_space are not supported in pgvector", db) := by
  simp [add_documents, h]

/-- C7 witness: a namespace set on the insert path is rejected. -/
theorem add_documents_unsupported_options_witness :
    add_documents storeA [docW] nsOpt genIdW insertAllOk true true dbEmpty
      = (Except.error "score_threshold, filters, and name_space are not supported in pgvector", dbEmpty) :=
  add_documents_unsupported_options storeA [docW] nsOpt genIdW insertAllOk
    true true dbEmpty rfl

/-- C9: score-threshold resolution returns a present threshold inside
`[0, 1]` inclusive, fails with the invalid-threshold error outside that
range, and resolves to 0 when absent. -/
theorem get_score_threshold_spec (s : Store) (opt : VecStoreOptions) :
    (opt.score_threshold = none → Store.get_score_threshold s opt = Except.ok 0) ∧
    (∀ t, opt.score_threshold = some t → 0 ≤ t → t ≤ 1 →
      Store.get_score_threshold s opt = Except.ok t) ∧
    (∀ t, opt.score_threshold = some t → (t < 0 ∨ 1 < t) →
      Store.get_score_threshold s opt = Except.error "Invalid score threshold") := by
  refine ⟨fun h => by simp [Store.get_score_threshold, h],
    fun t h h0 h1 => ?_, fun t h hout => ?_⟩
  · simp only [Store.get_score_threshold, h]
    rw [if_neg]
    push_neg
    exact ⟨h0, h1⟩
  · simp only [Store.get_score_threshold, h]
    rw [if_pos hout]

/-- C9 witness: the out-of-range threshold 11/10 is rejected. -/
theorem get_score_threshold_spec_witness :
    Store.get_score_threshold storeA thrOpt = Except.error "Invalid score threshold" :=
  (get_score_threshold_spec storeA thrOpt).2.2 (11/10) rfl (by norm_num)

/-- C1 counterexample: with a metadata filter (color = red) and a score
threshold (1/2) in the options, `similarity_search` still returns a row
whose metadata has no "color" key and whose distance 1 exceeds the
threshold, so the options do not constrain the result set. -/
theorem similarity_search_filters_threshold_cex :
    similarity_search storeA "q" 5 cexOpt1 distC tableC = Except.ok [cexDoc1] ∧
    List.lookup "color" cexDoc1.metadata = none ∧
    ¬ cexDoc1.score ≤ 1/2 := by
  refine ⟨rfl, rfl, ?_⟩
  rw [cexDoc1]
  norm_num

/-- C1 (amended): `similarity_search` ignores the filters and the score
threshold in the options entirely — its result depends only on the other
inputs, so the result set is constrained only by the namespace and the
limit, never by metadata filters or by a score threshold. -/
theorem similarity_search_ignores_filters_threshold (s : Store) (query : String)
    (limit : Nat) (opt : VecStoreOptions) (f : Option JValue) (t : Option ℚ)
    (dist : List ℚ → List ℚ → ℚ) (table : List SearchRow) :
    similarity_search s query limit
        { opt with filters := f, score_threshold := t } dist table
      = similarity_search s query limit opt dist table := rfl

/-- C3 counterexample: the store's collection name is "my_collection" and
the options set no namespace, yet the search returns the row stored under
the literal namespace "default" and excludes the row stored under
"my_collection" — the resolved namespace is not the collection name. -/
theorem similarity_search_namespace_cex :
    similarity_search storeA "q" 5 noOpts distC tableNs = Except.ok [cexDoc3] ∧
    storeA.collection_name = "my_collection" ∧
    noOpts.name_space = none ∧
    cexDoc3.page_content = "in default" := ⟨rfl, rfl, rfl, rfl⟩

/-- C3 (amended): when the options set no namespace, `similarity_search`
resolves the namespace to the literal string "default" (not the store's
configured collection name), and every returned document comes from a
table row whose namespace is "default", which is also the namespace
recorded in its metadata. -/
theorem similarity_search_default_namespace (s : Store) (query : String)
    (limit : Nat) (opt : VecStoreOptions) (dist : List ℚ → List ℚ → ℚ)
    (table : List SearchRow) (docs : List Document) (d : Document)
    (hns : opt.name_space = none)
    (h : similarity_search s query limit opt dist table = Except.ok docs)
    (hd : d ∈ docs) :
    ∃ r ∈ table, r.nspace = "default" ∧ d.page_content = r.content ∧
      List.lookup "namespace" d.metadata = some (JValue.str "default") := by
  obtain ⟨qv, r, _, hrtab, hrns, hpc, hmd, _⟩ :=
    mem_similarity_search s query limit opt dist table docs d h hd
  rw [hns] at hrns
  refine ⟨r, hrtab, hrns, hpc, ?_⟩
  rw [hmd, hrns]
  rfl

/-- C3 witness: the concrete search over the one-row default-namespace
table, with no namespace in the options. -/
theorem similarity_search_default_namespace_witness :
    ∃ r ∈ tableC, r.nspace = "default" ∧ cexDoc1.page_content = r.content ∧
      List.lookup "namespace" cexDoc1.metadata = some (JValue.str "default") :=
  similarity_search_default_namespace storeA "q" 1 noOpts distC tableC
    [cexDoc1] cexDoc1 rfl rfl (by simp)

/-- C5 counterexample: the options carry an embedder override that embeds
successfully, yet `similarity_search` consults the store's default
embedder — the call fails with the default embedder's error. -/
theorem similarity_search_override_cex :
    similarity_search storeErr "q" 1 overrideOpt distC tableC
      = Except.error "store embedder used" ∧
    embB.embed_query "q" = Except.ok [2] ∧
    overrideOpt.embedder = some embB := ⟨rfl, rfl, rfl⟩

/-- C5 (amended): on the insert path a per-call embedder override is used
(the result never depends on the store's default embedder once an override
is present), but `similarity_search` ignores the override and always
embeds the query with the store's default embedder. -/
theorem embedder_override_spec :
    (∀ (s : Store) (e e2 : Embedder) (docs : List Document) (opt : VecStoreOptions)
        (genId : Nat → String) (insertOk : EmbeddedRow → Bool)
        (beginOk commitOk : Bool) (db : PgDb),
      opt.embedder = some e →
      add_documents s docs opt genId insertOk beginOk commitOk db
        = add_documents { s with embedder := e2 } docs opt genId insertOk beginOk commitOk db) ∧
    (∀ (s : Store) (query : String) (limit : Nat) (opt : VecStoreOptions)
        (e : Embedder) (dist : List ℚ → List ℚ → ℚ) (table : List SearchRow),
      similarity_search s query limit { opt with embedder := some e } dist table
        = similarity_search s query limit { opt with embedder := none } dist table) := by
  constructor
  · intro s e e2 docs opt genId insertOk beginOk commitOk db h
    simp only [add_documents, h, Option.getD_some]
  · intro s query limit opt e dist table
    rfl

/-- C5 witness: with an override present, `add_documents` gives the same
result whatever the store's default embedder is. -/
theorem embedder_override_spec_witness :
    add_documents storeErr [docW] overrideOpt genIdW insertAllOk true true dbEmpty
      = add_documents { storeErr with embedder := embA } [docW] overrideOpt
          genIdW insertAllOk true true dbEmpty :=
  embedder_override_spec.1 storeErr embB embA [docW] overrideOpt genIdW
    insertAllOk true true dbEmpty rfl

/-- C8: every row returned by `similarity_search` is mapped to a Document
whose page_content is the stored text, whose metadata records the row's
namespace, and whose score is the raw distance computed by the backend
between the row's embedding and the query vector — not transformed into a
similarity score. -/
theorem similarity_search_row_mapping (s : Store) (query : String) (limit : Nat)
    (opt : VecStoreOptions) (dist : List ℚ → List ℚ → ℚ) (table : List SearchRow)
    (docs : List Document) (d : Document)
    (h : similarity_search s query limit opt dist table = Except.ok docs)
    (hd : d ∈ docs) :
    ∃ qv r, s.embedder.embed_query query = Except.ok qv ∧ r ∈ table ∧
      d.page_content = r.content ∧
      d.metadata = [("namespace", JValue.str r.nspace)] ∧
      d.score = dist r.embedding qv := by
  obtain ⟨qv, r, hq, hrtab, _, hpc, hmd, hs⟩ :=
    mem_similarity_search s query limit opt dist table docs d h hd
  exact ⟨qv, r, hq, hrtab, hpc, hmd, hs⟩

/-- C8 witness: the mapping evaluated on the concrete one-row table. -/
theorem similarity_search_row_mapping_witness :
    ∃ qv r, storeA.embedder.embed_query "q" = Except.ok qv ∧ r ∈ tableNs ∧
      cexDoc3.page_content = r.content ∧
      cexDoc3.metadata = [("namespace", JValue.str r.nspace)] ∧
      cexDoc3.score = distC r.embedding qv :=
  similarity_search_row_mapping storeA "q" 5 noOpts distC tableNs
    [cexDoc3] cexDoc3 rfl (by simp)

/-- C2: the batch insert of `add_documents` is atomic — whenever the call
returns an error (a failing insert, a failing begin or commit, or any
earlier failure), the database is exactly as before the call, and whenever
it returns ok, the database holds exactly its old rows followed by the
whole batch's rows. -/
theorem add_documents_atomic (s : Store) (docs : List Document)
    (opt : VecStoreOptions) (genId : Nat → String) (insertOk : EmbeddedRow → Bool)
    (beginOk commitOk : Bool) (db : PgDb) :
    (exceptOk (add_documents s docs opt genId insertOk beginOk commitOk db).1 = false →
      (add_documents s docs opt genId insertOk beginOk commitOk db).2 = db) ∧
    (∀ ids, (add_documents s docs opt genId insertOk beginOk commitOk db).1 = Except.ok ids →
      ∃ vectors,
        (opt.embedder.getD s.embedder).embed_documents
          (docs.map (fun d => d.page_content)) = Except.ok vectors ∧
        (add_documents s docs opt genId insertOk beginOk commitOk db).2.rows
          = db.rows ++ mkRows s.collection_uuid genId 0 (docs.zip vectors)) := by
  by_cases hopt : (opt.score_threshold.isSome || opt.filters.isSome || opt.name_space.isSome) = true
  · have heq : add_documents s docs opt genId insertOk beginOk commitOk db
        = (Except.error "score_threshold, filters, and name_space are not supported in pgvector", db) := by
      simp only [add_documents, if_pos hopt]
    rw [heq]
    exact ⟨fun _ => rfl, fun ids hids => by simp at hids⟩
  · cases hemb : (opt.embedder.getD s.embedder).embed_documents
        (docs.map (fun d => d.page_content)) with
    | error e =>
      have heq : add_documents s docs opt genId insertOk beginOk commitOk db
          = (Except.error e, db) := by
        simp only [add_documents, if_neg hopt, hemb]
      rw [heq]
      exact ⟨fun _ => rfl, fun ids hids => by simp at hids⟩
    | ok vectors =>
      by_cases hlen : vectors.length ≠ docs.length
      · have heq : add_documents s docs opt genId insertOk beginOk commitOk db
            = (Except.error "Number of vectors and documents do not match", db) := by
          simp only [add_documents, if_neg hopt, hemb, if_pos hlen]
        rw [heq]
        exact ⟨fun _ => rfl, fun ids hids => by simp at hids⟩
      · by_cases hbeg : beginOk = false
        · have heq : add_documents s docs opt genId insertOk beginOk commitOk db
              = (Except.error "failed to begin transaction", db) := by
            simp only [add_documents, if_neg hopt, hemb, if_neg hlen, if_pos hbeg]
          rw [heq]
          exact ⟨fun _ => rfl, fun ids hids => by simp at hids⟩
        · cases hloop : insertLoop s.collection_uuid genId insertOk 0 (docs.zip vectors) with
          | error e =>
            have heq : add_documents s docs opt genId insertOk beginOk commitOk db
                = (Except.error e, db) := by
              simp only [add_documents, if_neg hopt, hemb, if_neg hlen, if_neg hbeg, hloop]
            rw [heq]
            exact ⟨fun _ => rfl, fun ids hids => by simp at hids⟩
          | ok p =>
            obtain ⟨ids0, pending⟩ := p
            by_cases hcom : commitOk = true
            · have heq : add_documents s docs opt genId insertOk beginOk commitOk db
                  = (Except.ok ids0, { rows := db.rows ++ pending }) := by
                simp only [add_documents, if_neg hopt, hemb, if_neg hlen, if_neg hbeg,
                  hloop, if_pos hcom]
              rw [heq]
              refine ⟨fun hf => by simp [exceptOk] at hf, fun ids _ => ⟨vectors, rfl, ?_⟩⟩
              have hrows := insertLoop_ok_rows s.collection_uuid genId insertOk
                (docs.zip vectors) 0 ids0 pending hloop
              rw [← hrows]
            · have heq : add_documents s docs opt genId insertOk beginOk commitOk db
                  = (Except.error "failed to commit transaction", db) := by
                simp only [add_documents, if_neg hopt, hemb, if_neg hlen, if_neg hbeg,
                  hloop, if_neg hcom]
              rw [heq]
              exact ⟨fun _ => rfl, fun ids hids => by simp at hids⟩

/-- C2 witness: a successful one-document run publishes exactly the batch. -/
theorem add_documents_atomic_witness :
    ∃ vectors,
      (noOpts.embedder.getD storeA.embedder).embed_documents
        ([docW].map (fun d => d.page_content)) = Except.ok vectors ∧
      (add_documents storeA [docW] noOpts genIdW insertAllOk true true dbEmpty).2.rows
        = dbEmpty.rows ++ mkRows storeA.collection_uuid genIdW 0 ([docW].zip vectors) :=
  (add_documents_atomic storeA [docW] noOpts genIdW insertAllOk true true dbEmpty).2
    ["id"] rfl

/-- C10: for every JSON response, (1) a successful output of the search
tool's response processing joins at most the first 30 formatted titled
items (untitled items are skipped) of the first result of the first task,
and at least one titled item existed; (2) a status code present as a
number and different from 20000 yields the API error; (3) when no titled
item exists (including when the task/result/items structure is absent),
the result is an error. -/
theorem process_response_spec (res : JValue) :
    (∀ out, process_dataforseo_response res = Except.ok out →
      ∃ items, extractItems res = some items ∧
        items.filterMap formatItem ≠ [] ∧
        out = String.intercalate "\n" ((items.filterMap formatItem).take 30)) ∧
    (∀ n, asU64 (jget res "status_code") = some n → n ≠ 20000 →
      process_dataforseo_response res
        = Except.error ("API error: " ++ ((asStr (jget res "status_message")).getD "Unknown error"))) ∧
    ((∀ items, extractItems res = some items → items.filterMap formatItem = []) →
      ∃ e, process_dataforseo_response res = Except.error e) := by
  have hb : ∀ n, asU64 (jget res "status_code") = some n → n ≠ 20000 →
      process_dataforseo_response res
        = Except.error ("API error: " ++ ((asStr (jget res "status_message")).getD "Unknown error")) := by
    intro n hs hn
    unfold process_dataforseo_response
    rw [hs]
    exact if_pos hn
  have ha : ∀ out, process_dataforseo_response res = Except.ok out →
      processTasks res = Except.ok out := by
    intro out hok
    unfold process_dataforseo_response at hok
    cases hs : asU64 (jget res "status_code") with
    | none => rw [hs] at hok; exact hok
    | some n =>
      rw [hs] at hok
      have hok2 : (if n ≠ 20000 then
          Except.error ("API error: " ++ ((asStr (jget res "status_message")).getD "Unknown error"))
          else processTasks res) = Except.ok out := hok
      by_cases hn : n ≠ 20000
      · rw [if_pos hn] at hok2; cases hok2
      · rw [if_neg hn] at hok2; exact hok2
  have hc : (∀ items, extractItems res = some items → items.filterMap formatItem = []) →
      ∃ e, process_dataforseo_response res = Except.error e := by
    intro hno
    have hpt : processTasks res
        = Except.error "No valid results found in the response structure" := by
      unfold processTasks
      cases he : extractItems res with
      | none => rfl
      | some items =>
        show (if (collectOrganic items []).isEmpty then
              Except.error "No valid results found in the response structure"
            else Except.ok (String.intercalate "\n" (collectOrganic items []))) = _
        rw [collectOrganic_nil, hno items he]
        simp
    cases hs : asU64 (jget res "status_code") with
    | none =>
      have hp : process_dataforseo_response res
          = Except.error "No valid results found in the response structure" := by
        unfold process_dataforseo_response
        rw [hs]
        exact hpt
      exact ⟨_, hp⟩
    | some n =>
      by_cases hn : n ≠ 20000
      · exact ⟨_, hb n hs hn⟩
      · have hp : process_dataforseo_response res
            = Except.error "No valid results found in the response structure" := by
          unfold process_dataforseo_response
          rw [hs]
          have hif : (if n ≠ 20000 then
              Except.error ("API error: " ++ ((asStr (jget res "status_message")).getD "Unknown error"))
              else processTasks res) = processTasks res := if_neg hn
          exact hif.trans hpt
        exact ⟨_, hp⟩
  exact ⟨fun out hok => processTasks_ok res out (ha out hok), hb, hc⟩

/-- C10 witness: a response whose status code is 40501 yields the API
error built from its status message. -/
theorem process_response_spec_witness :
    process_dataforseo_response resBadStatus
      = Except.error ("API error: " ++ "Auth error") :=
  (process_response_spec resBadStatus).2.1 40501 rfl (by decide)
